import Mathlib

/-
  Verification of the ED CT Brain Workflow backend (gii_ct_workflow).

  Shallow embedding of the Python source under src/backend/src/.
  Conventions used throughout:
  * Python strings are Lean String values; lower-casing maps Char.toLower
    over the characters (the repository only uses ASCII keywords).
  * The database session is modelled as an explicit list of records,
    passed in and returned; a commit is the returned updated list.
  * datetime instants are abstract integers (minutes or seconds as noted);
    Optional[X] becomes Option X; raised exceptions become Except errors.
-/

namespace CTWorkflow

/-! ## String helpers modelling Python str operations -/

/-- Python str.lower, mapping each character to lower case (ASCII use only). -/
def lowerStr (s : String) : String := String.mk (s.data.map Char.toLower)

/-- Contiguous-sublist test on character lists: some tail of hay starts with needle. -/
def listSubstr (needle hay : List Char) : Bool :=
  hay.tails.any (fun t => needle.isPrefixOf t)

/-- Python "needle in hay" substring containment on strings. -/
def strContains (hay needle : String) : Bool := listSubstr needle.data hay.data

/-- Worker for pySplitWs: walk the characters keeping the current word reversed. -/
def pyWordsAux : List Char → List Char → List String
  | [], cur => if cur.isEmpty then [] else [String.mk cur.reverse]
  | c :: cs, cur =>
      if c.isWhitespace then
        if cur.isEmpty then pyWordsAux cs []
        else String.mk cur.reverse :: pyWordsAux cs []
      else pyWordsAux cs (c :: cur)

/-- Python str.split() with no argument: split on whitespace runs, dropping empty pieces. -/
def pySplitWs (s : String) : List String := pyWordsAux s.data []

/-- Worker for pySplitOn: split at every separator character, keeping empty pieces. -/
def pySplitOnAux (sep : Char) : List Char → List Char → List String
  | [], cur => [String.mk cur.reverse]
  | c :: cs, cur =>
      if c = sep then String.mk cur.reverse :: pySplitOnAux sep cs []
      else pySplitOnAux sep cs (c :: cur)

/-- Python s.split(sep) for a one-character separator: empty pieces are kept. -/
def pySplitOn (s : String) (sep : Char) : List String := pySplitOnAux sep s.data []

/-- Python set(s.split()): the distinct words of a string, in first-occurrence order. -/
def wordSet (s : String) : List String := (pySplitWs s).dedup

/-- Python str.strip(): drop leading and trailing whitespace. -/
def pyStrip (s : String) : String :=
  String.mk ((s.data.dropWhile Char.isWhitespace).reverse.dropWhile Char.isWhitespace).reverse

/-! ## Enumerations from src/backend/src/models (ct_scan.py, scanner.py, patient.py) -/

/-- models/ct_scan.py ScanStatus. -/
inductive ScanStatus
  | ordered | validated | scheduled | in_prep | in_progress
  | completed | reported | cancelled
deriving DecidableEq, Repr

/-- models/ct_scan.py UrgencyLevel. -/
inductive UrgencyLevel
  | immediate | urgent | routine
deriving DecidableEq, Repr

/-- models/ct_scan.py AppropriatenessScore. -/
inductive AppropriatenessScore
  | very_high | high | moderate | low | very_low
deriving DecidableEq, Repr

/-- models/ct_scan.py CTContrast. -/
inductive CTContrast
  | none | with_contrast | without_contrast
deriving DecidableEq, Repr

/-- models/scanner.py ScannerStatus. -/
inductive ScannerStatus
  | available | in_use | maintenance | out_of_service
deriving DecidableEq, Repr

/-- models/scanner.py ScannerType. -/
inductive ScannerType
  | standard | advanced | dual_source
deriving DecidableEq, Repr

/-- models/patient.py AnxietyLevel. -/
inductive AnxietyLevel
  | none | mild | moderate | severe
deriving DecidableEq, Repr

/-- models/patient.py PatientStatus. -/
inductive PatientStatus
  | registered | waiting | in_prep | in_scan | post_scan | completed | cancelled
deriving DecidableEq, Repr

/-! ## Clinical Agent: urgency determination (clinical_agent.py lines 58-129) -/

/-- The immediate-tier keyword list of ClinicalAgent._determine_urgency. -/
def immediate_indicators : List String :=
  ["stroke", "hemorrhage", "bleeding", "seizure", "unconscious",
   "coma", "focal deficit", "mass effect", "herniation"]

/-- The urgent-tier keyword list of ClinicalAgent._determine_urgency. -/
def urgent_indicators : List String :=
  ["trauma", "head injury", "confusion", "altered",
   "persistent headache", "vomiting", "papilledema"]

/-- ClinicalAgent._determine_urgency: first tier with a substring hit wins,
default routine. -/
def determine_urgency (text : String) : UrgencyLevel :=
  if immediate_indicators.any (fun k => strContains text k) then .immediate
  else if urgent_indicators.any (fun k => strContains text k) then .urgent
  else .routine

/-- The text normalisation of ClinicalAgent.analyze_ct_indication (lines 67-72):
lower-case each supplied piece (absent pieces become the empty string) and join
with single spaces. -/
def combined_text (ct_indication : String)
    (clinical_history symptoms : Option String) : String :=
  let indication_lower := lowerStr ct_indication
  let history_lower := match clinical_history with
    | some h => lowerStr h
    | Option.none => ""
  let symptoms_lower := match symptoms with
    | some s => lowerStr s
    | Option.none => ""
  indication_lower ++ " " ++ history_lower ++ " " ++ symptoms_lower

/-! ## Clinical Agent: GCS scoring (clinical_agent.py lines 276-318) -/

/-- Result dictionary of ClinicalAgent.calculate_gcs_score. -/
structure GCSResult where
  total_score : Int
  eye : Int
  verbal : Int
  motor : Int
  severity : String
  interpretation : String
deriving DecidableEq, Repr

/-- ClinicalAgent._interpret_gcs: walk the interpretation keys in descending
order (15, 13, 9, 8) and return the entry of the first key the score reaches;
below 8 return the critical string. -/
def interpret_gcs (score : Int) : String :=
  if score ≥ 15 then "Normal consciousness"
  else if score ≥ 13 then "Minor brain injury"
  else if score ≥ 9 then "Moderate brain injury"
  else if score ≥ 8 then "Severe brain injury (coma)"
  else "Critical - immediate intervention required"

/-- ClinicalAgent.calculate_gcs_score: total is the plain sum, severity uses
the 13/9 cut points, interpretation comes from interpret_gcs. -/
def calculate_gcs_score (eye_response verbal_response motor_response : Int) :
    GCSResult :=
  let total_score := eye_response + verbal_response + motor_response
  let severity :=
    if total_score ≥ 13 then "mild"
    else if total_score ≥ 9 then "moderate"
    else "severe"
  { total_score := total_score
    eye := eye_response
    verbal := verbal_response
    motor := motor_response
    severity := severity
    interpretation := interpret_gcs total_score }

/-! ## Clinical Agent: appropriateness scoring (clinical_agent.py lines 39-53, 131-163) -/

/-- ClinicalAgent.APPROPRIATENESS_CRITERIA, in source (insertion) order. -/
def APPROPRIATENESS_CRITERIA : List (String × Nat) :=
  [("head trauma, mild with loss of consciousness", 8),
   ("head trauma, mild without loss of consciousness", 4),
   ("head trauma, moderate to severe", 9),
   ("acute stroke symptoms", 9),
   ("altered mental status", 7),
   ("headache with focal neurological findings", 8),
   ("headache without focal findings", 2),
   ("seizure with focal features", 8),
   ("seizure without focal features", 3),
   ("suspected brain tumor", 7),
   ("dizziness/vertigo", 3),
   ("syncope", 4),
   ("cognitive decline", 6)]

/-- The per-criterion match test inside ClinicalAgent._calculate_appropriateness:
the overlap of the word sets of criterion phrase and input text has size at
least min(2, number of distinct criterion words). -/
def criteriaMatch (text : String) (c : String × Nat) : Bool :=
  let criteria_words := wordSet c.1
  let text_words := wordSet text
  decide ((criteria_words.filter (fun w => text_words.contains w)).length ≥
    min 2 criteria_words.length)

/-- The loop body of _calculate_appropriateness: a matched criterion whose
score strictly beats the running best replaces the best score and reason. -/
def calcAppStep (text : String) (acc : Nat × String) (c : String × Nat) :
    Nat × String :=
  if criteriaMatch text c then
    if c.2 > acc.1 then (c.2, "Matched criteria: " ++ c.1) else acc
  else acc

/-- ClinicalAgent._calculate_appropriateness: fold the criteria table with
calcAppStep starting from score 0, map the best score to a category by the
7/6/4/2 thresholds and render the reason string. -/
def calculate_appropriateness (text : String) : AppropriatenessScore × String :=
  let best := APPROPRIATENESS_CRITERIA.foldl (calcAppStep text)
    (0, "No specific criteria matched")
  let appropriateness :=
    if best.1 ≥ 7 then AppropriatenessScore.very_high
    else if best.1 ≥ 6 then AppropriatenessScore.high
    else if best.1 ≥ 4 then AppropriatenessScore.moderate
    else if best.1 ≥ 2 then AppropriatenessScore.low
    else AppropriatenessScore.very_low
  (appropriateness, "Score: " ++ toString best.1 ++ "/9 - " ++ best.2)

/-- Spec-side formula, from the claim wording: the highest score among the
matched criteria, 0 when none match. -/
def bestMatchedScoreSpec (text : String) : Nat :=
  ((APPROPRIATENESS_CRITERIA.filter (fun c => criteriaMatch text c)).map
    Prod.snd).foldl max 0

/-! ## Persisted records (src/backend/src/models)

DateTime columns become abstract Int instants; the Float column
ai_quality_score is likewise an abstract Option Int (no claim depends on it);
nullable columns become Option fields. A database table is a List of records
in storage order, and a commit is the returned updated list. -/

/-- models/ct_scan.py CTScan row. -/
structure CTScanRec where
  id : String
  scan_number : String
  patient_id : String
  ordering_physician_id : Option String
  radiology_technician_id : Option String
  radiologist_id : Option String
  scanner_id : Option String
  ct_indication : String
  clinical_history : Option String
  symptoms : Option String
  onset_time : Option Int
  gcs_score : Option Int
  neurological_findings : Option String
  urgency_level : UrgencyLevel
  appropriateness_score : Option AppropriatenessScore
  appropriateness_reason : Option String
  contrast : CTContrast
  ai_preliminary_findings : Option String
  ai_motion_artifact : Bool
  ai_quality_score : Option Int
  status : ScanStatus
  scheduled_time : Option Int
  started_time : Option Int
  completed_time : Option Int
  reported_time : Option Int
  preliminary_report : Option String
  final_report : Option String
  critical_findings : Bool
  critical_findings_notification : Bool
  transport_requested : Bool
  transport_eta : Option Int
  transport_team : Option String
  ordered_at : Int
  created_at : Int
  updated_at : Int
deriving DecidableEq, Repr

/-- models/scanner.py Scanner row (the Float column current_utilization is
read by no claim and is omitted). -/
structure ScannerRec where
  id : String
  scanner_code : String
  name : String
  location : Option String
  scanner_type : ScannerType
  slice_count : Option Int
  manufacturer : Option String
  model : Option String
  serial_number : Option String
  status : ScannerStatus
  is_active : Bool
  operational_hours_start : String
  operational_hours_end : String
  avg_scan_duration_minutes : Nat
  daily_capacity : Nat
  today_scans_completed : Nat
  today_scans_scheduled : Nat
  last_maintenance : Option Int
  next_maintenance : Option Int
  maintenance_notes : Option String
  created_at : Int
  updated_at : Int
deriving DecidableEq, Repr

/-! ## Clinical Agent: update_scan_with_analysis (clinical_agent.py lines 243-274) -/

/-- The fields of the analysis dictionary read by update_scan_with_analysis. -/
structure AnalysisResult where
  urgency_level : UrgencyLevel
  appropriateness_score : AppropriatenessScore
  appropriateness_reason : String
deriving DecidableEq, Repr

/-- Outcomes of update_scan_with_analysis: the ValueError "CT scan not found"
when the scan is absent, and the NameError raised on line 267 by
await db.refresh(scan) — the name db is bound nowhere in the method scope or
the module, so after the commit the call raises instead of returning. -/
inductive ClinicalUpdateError
  | notFound
  | nameErrorUndefinedDb
deriving DecidableEq, Repr

/-- The summary dictionary the source intends to return (lines 269-274);
the NameError on line 267 means it is never actually produced. -/
structure ClinicalUpdateSummary where
  scan_id : String
  urgency_level : UrgencyLevel
  appropriateness_score : AppropriatenessScore
  status : ScanStatus
deriving DecidableEq, Repr

/-- ClinicalAgent.update_scan_with_analysis: load the scan by id (ValueError
when absent), write the analysed urgency, appropriateness score and reason,
advance status ordered → validated, commit, and then hit the undefined-name
db on the refresh line, so the result is always an error.  The first
component is the database as committed before the NameError. -/
def update_scan_with_analysis (db : List CTScanRec) (scan_id : String)
    (analysis_result : AnalysisResult) :
    List CTScanRec × Except ClinicalUpdateError ClinicalUpdateSummary :=
  match db.find? (fun s => s.id == scan_id) with
  | Option.none => (db, Except.error ClinicalUpdateError.notFound)
  | some scan =>
      let scan1 := { scan with
        urgency_level := analysis_result.urgency_level
        appropriateness_score := some analysis_result.appropriateness_score
        appropriateness_reason := some analysis_result.appropriateness_reason }
      let scan2 := if scan1.status = ScanStatus.ordered
        then { scan1 with status := ScanStatus.validated } else scan1
      let committed := db.map (fun s => if s.id == scan_id then scan2 else s)
      (committed, Except.error ClinicalUpdateError.nameErrorUndefinedDb)

/-! ## Resource Agent (resource_agent.py lines 22-138) -/

/-- Python int(p) for the pieces of an "HH:MM" string: digits only. -/
def strToNat? (s : String) : Option Nat :=
  if s.data ≠ [] ∧ s.data.all Char.isDigit then
    some (s.data.foldl (fun n c => n * 10 + (c.toNat - 48)) 0)
  else Option.none

/-- map(int, s.split(":")) unpacked into hour and minute; the source assumes
a well-formed "HH:MM" string. -/
def parseHHMM (s : String) : Nat × Nat :=
  match (pySplitOn s ':').map strToNat? with
  | [some h, some m] => (h, m)
  | _ => (0, 0)

/-- ResourceAgent._is_within_operational_hours: the current instant (given as
minutes since midnight) is at or after the window start, and now plus the
requested duration is at or before the window end. -/
def is_within_operational_hours (scanner : ScannerRec)
    (now_minutes duration_minutes : Nat) : Bool :=
  let sp := parseHHMM scanner.operational_hours_start
  let ep := parseHHMM scanner.operational_hours_end
  let start_time := sp.1 * 60 + sp.2
  let end_time := ep.1 * 60 + ep.2
  let scan_end := now_minutes + duration_minutes
  decide (start_time ≤ now_minutes ∧ scan_end ≤ end_time)

/-- ResourceAgent.find_available_scanner: among active scanners with status
available (optionally filtered by preferred type), return the first whose
scheduled count is below capacity and whose operational window fits the scan. -/
def find_available_scanner (db : List ScannerRec) (now_minutes : Nat)
    (scan_duration_minutes : Nat) (preferred_type : Option ScannerType) :
    Option ScannerRec :=
  let scanners : List ScannerRec := db.filter (fun s =>
    s.status == ScannerStatus.available && s.is_active)
  let scanners : List ScannerRec := match preferred_type with
    | some t => scanners.filter (fun s => s.scanner_type == t)
    | Option.none => scanners
  scanners.find? (fun s =>
    decide (s.today_scans_scheduled < s.daily_capacity) &&
      is_within_operational_hours s now_minutes scan_duration_minutes)

/-- Errors raised by ResourceAgent.schedule_scan. -/
inductive ScheduleError
  | scanNotFound
  | scannerNotFound
  | scannerNotAvailable
deriving DecidableEq, Repr

/-- The dictionary returned by ResourceAgent.schedule_scan (times in minutes). -/
structure ScheduleSummary where
  scan_id : String
  scanner_id : String
  scanner_code : String
  scheduled_time : Int
  estimated_duration_minutes : Nat
  estimated_completion : Int
deriving DecidableEq, Repr

/-- The two tables touched by ResourceAgent.schedule_scan. -/
structure ResourceDB where
  scans : List CTScanRec
  scanners : List ScannerRec
deriving DecidableEq, Repr

/-- ResourceAgent.schedule_scan: NotFound when scan or scanner is absent,
InvalidState when the scanner status is not available; otherwise assign the
scanner, default the time to now+15 minutes, set the scan status to scheduled,
increment today_scans_scheduled (no capacity check), commit and return the
assignment summary. -/
def schedule_scan (db : ResourceDB) (scan_id scanner_id : String)
    (scheduled_time : Option Int) (now : Int) :
    ResourceDB × Except ScheduleError ScheduleSummary :=
  match db.scans.find? (fun s => s.id == scan_id) with
  | Option.none => (db, Except.error ScheduleError.scanNotFound)
  | some scan =>
    match db.scanners.find? (fun s => s.id == scanner_id) with
    | Option.none => (db, Except.error ScheduleError.scannerNotFound)
    | some scanner =>
      if scanner.status ≠ ScannerStatus.available then
        (db, Except.error ScheduleError.scannerNotAvailable)
      else
        let t := scheduled_time.getD (now + 15)
        let scan2 := { scan with
          scanner_id := some scanner_id
          scheduled_time := some t
          status := ScanStatus.scheduled }
        let scanner2 := { scanner with
          today_scans_scheduled := scanner.today_scans_scheduled + 1 }
        ({ scans := db.scans.map (fun s => if s.id == scan_id then scan2 else s)
           scanners := db.scanners.map (fun s =>
             if s.id == scanner_id then scanner2 else s) },
         Except.ok { scan_id := scan.id
                     scanner_id := scanner.id
                     scanner_code := scanner.scanner_code
                     scheduled_time := t
                     estimated_duration_minutes := scanner.avg_scan_duration_minutes
                     estimated_completion := t + scanner.avg_scan_duration_minutes })

/-! ## CT Scan routes: status patch (api/routes/scans.py lines 229-262) -/

/-- The HTTPException raised by the scan routes: 404 CT scan not found. -/
inductive HTTPError
  | notFound
deriving DecidableEq, Repr

/-- update_scan_status (the PATCH status route): 404 when the scan is absent;
otherwise overwrite the status, stamp started_time for in_progress,
completed_time for completed, reported_time for reported, refresh updated_at,
commit and return the updated scan. -/
def update_scan_status (db : List CTScanRec) (scan_id : String)
    (new_status : ScanStatus) (now : Int) :
    List CTScanRec × Except HTTPError CTScanRec :=
  match db.find? (fun s => s.id == scan_id) with
  | Option.none => (db, Except.error HTTPError.notFound)
  | some scan =>
      let scan1 := { scan with status := new_status }
      let scan2 :=
        if new_status = ScanStatus.in_progress then
          { scan1 with started_time := some now }
        else if new_status = ScanStatus.completed then
          { scan1 with completed_time := some now }
        else if new_status = ScanStatus.reported then
          { scan1 with reported_time := some now }
        else scan1
      let scan3 := { scan2 with updated_at := now }
      (db.map (fun s => if s.id == scan_id then scan3 else s), Except.ok scan3)

/-! ## Patient Agent (patient_agent.py lines 28-162) -/

/-- models/patient.py Gender. -/
inductive Gender
  | male | female | other
deriving DecidableEq, Repr

/-- models/patient.py Patient row. -/
structure PatientRec where
  id : String
  mrn : String
  name : String
  ic_number : Option String
  date_of_birth : Int
  gender : Gender
  phone : Option String
  email : Option String
  address : Option String
  ed_visit_id : Option String
  ward : Option String
  bed_number : Option String
  chief_complaint : Option String
  clinical_notes : Option String
  allergies : Option String
  status : PatientStatus
  anxiety_level : AnxietyLevel
  consent_given : Bool
  consent_timestamp : Option Int
  digital_consent_form : Option String
  registered_at : Int
  updated_at : Int
deriving DecidableEq, Repr

/-- models/faq.py FAQ row. -/
structure FAQRec where
  id : String
  question : String
  answer : String
  category : Option String
  keywords : Option String
  language : String
  view_count : Nat
  helpful_count : Nat
  not_helpful_count : Nat
  is_active : Bool
deriving DecidableEq, Repr

/-- The ValueError "Patient not found" raised by the Patient Agent. -/
inductive PatientError
  | notFound
deriving DecidableEq, Repr

/-- Python truthiness of a numeric questionnaire value: absent or zero is falsy. -/
def truthyNum (o : Option Int) : Bool :=
  match o with
  | Option.none => false
  | some n => decide (n ≠ 0)

/-- Python truthiness of an optional string value: absent or empty is falsy. -/
def truthyStr (o : Option String) : Bool :=
  match o with
  | Option.none => false
  | some s => decide (s ≠ "")

/-- The questionnaire keys read by PatientAgent.assess_anxiety: three numeric
answers and the previous-experience string. -/
structure AnxietyResponses where
  nervous : Option Int
  worrying : Option Int
  relaxation_difficulty : Option Int
  previous_ct_experience : Option String
deriving DecidableEq, Repr

/-- PatientAgent._get_anxiety_recommendations: fixed list per level. -/
def get_anxiety_recommendations (anxiety_level : AnxietyLevel) : List String :=
  match anxiety_level with
  | AnxietyLevel.none =>
      ["Your CT scan is routine. Our staff will guide you through the process."]
  | AnxietyLevel.mild =>
      ["Consider listening to calming music during the scan.",
       "Let our staff know if you\x27d like any additional support."]
  | AnxietyLevel.moderate =>
      ["We recommend our VR relaxation program before the scan.",
       "A staff member will stay with you throughout the procedure.",
       "Deep breathing exercises can help you relax."]
  | AnxietyLevel.severe =>
      ["Please speak with our care team about your concerns.",
       "We can arrange a pre-visit to familiarize you with the equipment.",
       "VR relaxation is strongly recommended before your scan.",
       "Sedation options may be available - please discuss with your doctor."]

/-- The dictionary returned by PatientAgent.assess_anxiety. -/
structure AnxietyResult where
  patient_id : String
  anxiety_level : AnxietyLevel
  score : Int
  recommendations : List String
deriving DecidableEq, Repr

/-- PatientAgent.assess_anxiety: NotFound when the patient is absent;
otherwise sum the truthy numeric answers, add 2 for a negative previous CT
experience, classify by the 2/5/8 thresholds, persist the level on the
patient and return the summary with the level recommendations. -/
def assess_anxiety (db : List PatientRec) (patient_id : String)
    (responses : AnxietyResponses) :
    List PatientRec × Except PatientError AnxietyResult :=
  match db.find? (fun p => p.id == patient_id) with
  | Option.none => (db, Except.error PatientError.notFound)
  | some patient =>
      let score : Int := 0
      let score := if truthyNum responses.nervous then
          score + responses.nervous.getD 0 else score
      let score := if truthyNum responses.worrying then
          score + responses.worrying.getD 0 else score
      let score := if truthyNum responses.relaxation_difficulty then
          score + responses.relaxation_difficulty.getD 0 else score
      let score := if truthyStr responses.previous_ct_experience then
          (if responses.previous_ct_experience == some "negative" then
            score + 2 else score)
        else score
      let anxiety_level :=
        if score ≤ 2 then AnxietyLevel.none
        else if score ≤ 5 then AnxietyLevel.mild
        else if score ≤ 8 then AnxietyLevel.moderate
        else AnxietyLevel.severe
      let patient2 := { patient with anxiety_level := anxiety_level }
      (db.map (fun p => if p.id == patient_id then patient2 else p),
       Except.ok { patient_id := patient_id
                   anxiety_level := anxiety_level
                   score := score
                   recommendations := get_anxiety_recommendations anxiety_level })

/-- PatientAgent._generate_faq_answer: the fixed fallback deflection string. -/
def generate_faq_answer : String :=
  "I understand you have a question about your CT brain scan. " ++
  "Please contact our staff or speak with your healthcare provider " ++
  "for more specific information about your procedure."

/-- The keyword branch of the answer_faq relevance test: the FAQ has a truthy
keywords string and some comma-separated, trimmed, lower-cased keyword is a
substring of the lower-cased question. -/
def kwRelevant (question_lower : String) (faq : FAQRec) : Bool :=
  match faq.keywords with
  | Option.none => false
  | some ks =>
      if ks = "" then false
      else ((pySplitOn ks ',').map (fun k => lowerStr (pyStrip k))).any
        (fun k => strContains question_lower k)

/-- The word-overlap branch of the answer_faq relevance test: the word sets of
the lower-cased question and the FAQ question intersect. -/
def wordRelevant (question_lower : String) (faq : FAQRec) : Bool :=
  (pySplitWs question_lower).any
    (fun w => (pySplitWs (lowerStr faq.question)).contains w)

/-- The relevance-collection loop of PatientAgent.answer_faq: the keyword
check appends and continues, otherwise the word-overlap check appends. -/
def relevantLoop (question_lower : String) : List FAQRec → List FAQRec
  | [] => []
  | faq :: rest =>
      if kwRelevant question_lower faq then
        faq :: relevantLoop question_lower rest
      else if wordRelevant question_lower faq then
        faq :: relevantLoop question_lower rest
      else relevantLoop question_lower rest

/-- The dictionary returned by PatientAgent.answer_faq. -/
structure FAQAnswer where
  answer : String
  category : Option String
  faq_id : Option String
  confidence : String
deriving DecidableEq, Repr

/-- PatientAgent.answer_faq: collect the relevant active FAQs in storage
order; the first one is the best match — its view count is incremented and
committed and its answer returned with confidence high when it is the only
match, else medium; with no relevant FAQ the fixed fallback answer is
returned with confidence low and no FAQ id (the stored category field of the
fallback is the plain string general). -/
def answer_faq (db : List FAQRec) (question : String) :
    List FAQRec × FAQAnswer :=
  let faqs := db.filter (fun f => f.is_active)
  let question_lower := lowerStr question
  let relevant_faqs := relevantLoop question_lower faqs
  match relevant_faqs with
  | [] => (db, { answer := generate_faq_answer
                 category := some "general"
                 faq_id := Option.none
                 confidence := "low" })
  | best_faq :: rest =>
      let best2 := { best_faq with view_count := best_faq.view_count + 1 }
      (db.map (fun f => if f.id == best_faq.id then best2 else f),
       { answer := best_faq.answer
         category := best_faq.category
         faq_id := some best_faq.id
         confidence := if rest.isEmpty then "high" else "medium" })

/-! ## Authentication utilities (utils/auth.py lines 23-54, config.py)

The third-party jose JWT library is a boundary dependency: it is modelled by
a Token value carrying the encoded payload, the signing secret and the
algorithm; decoding verifies that the secret and algorithm match and that any
exp claim is not in the past, exactly the checks the library performs. -/

/-- A JSON claim value: the claims used here are strings and the exp instant. -/
inductive JVal
  | str (s : String)
  | time (t : Int)
deriving DecidableEq, Repr

/-- A claim mapping, as an ordered key-value list with distinct keys. -/
abbrev Claims := List (String × JVal)

/-- Python dict lookup by key. -/
def dictLookup (m : Claims) (k : String) : Option JVal :=
  (m.find? (fun kv => kv.1 == k)).map Prod.snd

/-- Python dict update of a single key: overwrite in place when the key is
present, append otherwise. -/
def dictSet (m : Claims) (k : String) (v : JVal) : Claims :=
  if m.any (fun kv => kv.1 == k) then
    m.map (fun kv => if kv.1 == k then (k, v) else kv)
  else m ++ [(k, v)]

/-- config.py settings.JWT_SECRET. -/
def JWT_SECRET : String := "ct_workflow_jwt_secret_key_2026_hospital_shah_alam"

/-- config.py settings.JWT_ALGORITHM. -/
def JWT_ALGORITHM : String := "HS256"

/-- config.py settings.JWT_EXPIRATION_MINUTES. -/
def JWT_EXPIRATION_MINUTES : Int := 1440

/-- Model of a signed JWT produced by jose jwt.encode. -/
structure Token where
  payload : Claims
  secret : String
  algorithm : String
deriving DecidableEq, Repr

/-- Model of jose jwt.encode. -/
def jwt_encode (claims : Claims) (secret : String) (algorithm : String) :
    Token :=
  { payload := claims, secret := secret, algorithm := algorithm }

/-- Model of jose jwt.decode at instant now: a JWTError (signature failure,
unaccepted algorithm, malformed or past exp) is the error case; jose accepts
a token whose exp equals now and rejects exp strictly in the past. -/
def jwt_decode (tok : Token) (secret : String) (algorithms : List String)
    (now : Int) : Except Unit Claims :=
  if tok.secret ≠ secret then Except.error ()
  else if ¬ algorithms.contains tok.algorithm then Except.error ()
  else
    match dictLookup tok.payload "exp" with
    | some (JVal.time t) =>
        if t < now then Except.error () else Except.ok tok.payload
    | some (JVal.str _) => Except.error ()
    | Option.none => Except.ok tok.payload

/-- The expiry chosen by create_access_token (auth.py lines 27-30): now plus
the supplied delta when that delta is truthy (a zero timedelta is falsy in
Python), otherwise now plus the configured default lifetime in minutes.
Times are in seconds. -/
def token_expire (expires_delta : Option Int) (now : Int) : Int :=
  match expires_delta with
  | some d => if d ≠ 0 then now + d else now + JWT_EXPIRATION_MINUTES * 60
  | Option.none => now + JWT_EXPIRATION_MINUTES * 60

/-- create_access_token: copy the supplied claims, set exp to the computed
expiry (overwriting any supplied exp claim), and sign with the configured
secret and algorithm. -/
def create_access_token (data : Claims) (expires_delta : Option Int)
    (now : Int) : Token :=
  let expire := token_expire expires_delta now
  let to_encode := dictSet data "exp" (JVal.time expire)
  jwt_encode to_encode JWT_SECRET JWT_ALGORITHM

/-- decode_access_token: decode with the configured secret and algorithm
list; a JWTError yields no value instead of propagating. -/
def decode_access_token (token : Token) (now : Int) : Option Claims :=
  match jwt_decode token JWT_SECRET [JWT_ALGORITHM] now with
  | Except.ok payload => some payload
  | Except.error _ => Option.none

/-- create_token_payload: the canonical login claim set. -/
def create_token_payload (user_id email role : String) : Claims :=
  [("sub", JVal.str user_id), ("email", JVal.str email),
   ("role", JVal.str role), ("type", JVal.str "access")]

/-! ## Real-time broadcast channel (api/websocket.py lines 11-58)

A live client connection is identified by a Nat; the registry state mirrors
the two dictionaries of SocketManager. Which sends fail during a broadcast
is external input, supplied as the list of failing connections. -/

/-- The two registries of SocketManager (user_connections is populated
nowhere in the repository). -/
structure SocketManagerState where
  active_connections : List (String × List Nat)
  user_connections : List (String × Nat)
deriving DecidableEq, Repr

/-- SocketManager.connect: create the room entry as an empty list when the
room is new, then append the connection to the room list. -/
def socket_connect (st : SocketManagerState) (ws : Nat) (room : String) :
    SocketManagerState :=
  let conns :=
    if st.active_connections.any (fun e => e.1 == room) then
      st.active_connections
    else st.active_connections ++ [(room, [])]
  { st with active_connections :=
      conns.map (fun e => if e.1 == room then (e.1, e.2 ++ [ws]) else e) }

/-- SocketManager.disconnect: when the room is registered, remove the
connection from its list if present, then delete the room entry entirely if
the list is now empty. -/
def socket_disconnect (st : SocketManagerState) (ws : Nat) (room : String) :
    SocketManagerState :=
  if st.active_connections.any (fun e => e.1 == room) then
    let conns := st.active_connections.map (fun e =>
      if e.1 == room then (e.1, e.2.erase ws) else e)
    { st with active_connections :=
        conns.filter (fun e => !(e.1 == room && e.2.isEmpty)) }
  else st

/-- The connection list of a room (the dictionary entry). -/
def roomConnections (st : SocketManagerState) (room : String) : List Nat :=
  ((st.active_connections.find? (fun e => e.1 == room)).map Prod.snd).getD []

/-- SocketManager.broadcast: when the room is registered, send to every
connection in the room; the connections whose send failed are collected and
then disconnected one by one through SocketManager.disconnect. -/
def socket_broadcast (st : SocketManagerState) (failed : List Nat)
    (room : String) : SocketManagerState :=
  if st.active_connections.any (fun e => e.1 == room) then
    let disconnected := (roomConnections st room).filter
      (fun c => failed.contains c)
    disconnected.foldl (fun s c => socket_disconnect s c room) st
  else st

/-- The operations a client session can drive against the registry. -/
inductive SocketOp
  | connect (ws : Nat) (room : String)
  | disconnect (ws : Nat) (room : String)
  | broadcast (failed : List Nat) (room : String)
deriving DecidableEq, Repr

/-- One registry operation. -/
def socket_step (st : SocketManagerState) : SocketOp → SocketManagerState
  | SocketOp.connect ws room => socket_connect st ws room
  | SocketOp.disconnect ws room => socket_disconnect st ws room
  | SocketOp.broadcast failed room => socket_broadcast st failed room

/-- Run a sequence of operations from the freshly constructed (empty)
SocketManager. -/
def socket_run (ops : List SocketOp) : SocketManagerState :=
  ops.foldl socket_step { active_connections := [], user_connections := [] }

/-! ## Concrete fixtures used by witnesses -/

/-- The login claim mapping of the spec round-trip test. -/
def loginClaims : Claims :=
  [("sub", JVal.str "u1"), ("email", JVal.str "a@b.com"),
   ("role", JVal.str "nurse")]

/-- A freshly ordered scan, as the create-scan route would store it. -/
def sampleScan : CTScanRec where
  id := "scan-1"
  scan_number := "CT-20260101120000-ABCD"
  patient_id := "pat-1"
  ordering_physician_id := some "user-1"
  radiology_technician_id := Option.none
  radiologist_id := Option.none
  scanner_id := Option.none
  ct_indication := "acute stroke symptoms"
  clinical_history := Option.none
  symptoms := Option.none
  onset_time := Option.none
  gcs_score := Option.none
  neurological_findings := Option.none
  urgency_level := UrgencyLevel.routine
  appropriateness_score := Option.none
  appropriateness_reason := Option.none
  contrast := CTContrast.without_contrast
  ai_preliminary_findings := Option.none
  ai_motion_artifact := false
  ai_quality_score := Option.none
  status := ScanStatus.ordered
  scheduled_time := Option.none
  started_time := Option.none
  completed_time := Option.none
  reported_time := Option.none
  preliminary_report := Option.none
  final_report := Option.none
  critical_findings := false
  critical_findings_notification := false
  transport_requested := false
  transport_eta := Option.none
  transport_team := Option.none
  ordered_at := 0
  created_at := 0
  updated_at := 0

/-- An available scanner whose daily capacity is already exhausted
(today_scans_scheduled = daily_capacity = 1). -/
def fullScanner : ScannerRec where
  id := "scanner-1"
  scanner_code := "CT-01"
  name := "Main CT"
  location := some "Radiology Department, Room 205"
  scanner_type := ScannerType.standard
  slice_count := some 64
  manufacturer := Option.none
  model := Option.none
  serial_number := Option.none
  status := ScannerStatus.available
  is_active := true
  operational_hours_start := "08:00"
  operational_hours_end := "22:00"
  avg_scan_duration_minutes := 30
  daily_capacity := 1
  today_scans_completed := 0
  today_scans_scheduled := 1
  last_maintenance := Option.none
  next_maintenance := Option.none
  maintenance_notes := Option.none
  created_at := 0
  updated_at := 0

/-- A registered patient with no assessed anxiety. -/
def samplePatient : PatientRec where
  id := "pat-1"
  mrn := "M-100"
  name := "Jane Doe"
  ic_number := Option.none
  date_of_birth := 0
  gender := Gender.female
  phone := some "0123456789"
  email := Option.none
  address := Option.none
  ed_visit_id := Option.none
  ward := Option.none
  bed_number := Option.none
  chief_complaint := Option.none
  clinical_notes := Option.none
  allergies := Option.none
  status := PatientStatus.registered
  anxiety_level := AnxietyLevel.none
  consent_given := false
  consent_timestamp := Option.none
  digital_consent_form := Option.none
  registered_at := 0
  updated_at := 0

/-- An active FAQ about scan duration. -/
def sampleFAQ : FAQRec where
  id := "faq-1"
  question := "How long does a CT scan take?"
  answer := "A CT brain scan typically takes 15 to 30 minutes."
  category := some "procedure"
  keywords := some "duration, how long, time"
  language := "en"
  view_count := 3
  helpful_count := 0
  not_helpful_count := 0
  is_active := true

/-- An available scanner with spare capacity. -/
def freeScanner : ScannerRec :=
  { fullScanner with
    id := "scanner-2"
    scanner_code := "CT-02"
    daily_capacity := 40
    today_scans_scheduled := 0 }

end CTWorkflow

namespace CTWorkflow

/-! ## Theorems -/

/-! ### Helper lemmas about folds -/

theorem le_foldl_max (l : List Nat) (a : Nat) : a ≤ l.foldl max a := by
  induction l generalizing a with
  | nil => exact Nat.le_refl a
  | cons x l ih => exact Nat.le_trans (Nat.le_max_left a x) (ih (max a x))

theorem mem_le_foldl_max (l : List Nat) : ∀ (a x : Nat), x ∈ l → x ≤ l.foldl max a := by
  induction l with
  | nil => intro a x hx; cases hx
  | cons y l ih =>
    intro a x hx
    rcases List.mem_cons.mp hx with h | h
    · subst h; exact Nat.le_trans (Nat.le_max_right a x) (le_foldl_max l (max a x))
    · exact ih (max a y) x h

/-- The best score computed by the _calculate_appropriateness loop is the
running maximum of the matched criteria scores. -/
theorem calcApp_score (text : String) (l : List (String × Nat)) (acc : Nat × String) :
    (l.foldl (calcAppStep text) acc).1 =
      ((l.filter (fun c => criteriaMatch text c)).map Prod.snd).foldl max acc.1 := by
  induction l generalizing acc with
  | nil => rfl
  | cons c l ih =>
    cases hm : criteriaMatch text c with
    | true =>
      rw [List.foldl_cons, List.filter_cons_of_pos hm, List.map_cons, List.foldl_cons]
      by_cases hgt : c.2 > acc.1
      · rw [show calcAppStep text acc c = (c.2, "Matched criteria: " ++ c.1) by
          simp [calcAppStep, hm, hgt], ih]
        congr 1
        omega
      · rw [show calcAppStep text acc c = acc by simp [calcAppStep, hm, hgt], ih]
        congr 1
        omega
    | false =>
      rw [List.foldl_cons, List.filter_cons_of_neg (by simp [hm]),
        show calcAppStep text acc c = acc by simp [calcAppStep, hm], ih]

/-- When no criterion matches, the _calculate_appropriateness loop leaves the
accumulator untouched. -/
theorem calcApp_none (text : String) (l : List (String × Nat)) (acc : Nat × String)
    (h : l.filter (fun c => criteriaMatch text c) = []) :
    l.foldl (calcAppStep text) acc = acc := by
  induction l generalizing acc with
  | nil => rfl
  | cons c l ih =>
    rw [List.filter_cons] at h
    cases hm : criteriaMatch text c with
    | true => rw [hm] at h; simp at h
    | false =>
      rw [hm] at h
      simp only [Bool.false_eq_true, if_false] at h
      rw [List.foldl_cons, show calcAppStep text acc c = acc by simp [calcAppStep, hm]]
      exact ih acc h

/-- The _calculate_appropriateness loop either returns its initial accumulator
or the score and reason of some matched criterion. -/
theorem calcApp_reason (text : String) (l : List (String × Nat)) (acc : Nat × String) :
    l.foldl (calcAppStep text) acc = acc ∨
      ∃ c ∈ l, criteriaMatch text c = true ∧
        (l.foldl (calcAppStep text) acc).1 = c.2 ∧
        (l.foldl (calcAppStep text) acc).2 = "Matched criteria: " ++ c.1 := by
  induction l generalizing acc with
  | nil => exact Or.inl rfl
  | cons c l ih =>
    rw [List.foldl_cons]
    cases hm : criteriaMatch text c with
    | true =>
      by_cases hgt : c.2 > acc.1
      · have hstep : calcAppStep text acc c = (c.2, "Matched criteria: " ++ c.1) := by
          simp [calcAppStep, hm, hgt]
        rw [hstep]
        rcases ih (c.2, "Matched criteria: " ++ c.1) with h | ⟨c', hc', hmm, h1, h2⟩
        · exact Or.inr ⟨c, List.mem_cons_self c l, hm, by rw [h], by rw [h]⟩
        · exact Or.inr ⟨c', List.mem_cons_of_mem c hc', hmm, h1, h2⟩
      · have hstep : calcAppStep text acc c = acc := by simp [calcAppStep, hm, hgt]
        rw [hstep]
        rcases ih acc with h | ⟨c', hc', hmm, h1, h2⟩
        · exact Or.inl h
        · exact Or.inr ⟨c', List.mem_cons_of_mem c hc', hmm, h1, h2⟩
    | false =>
      have hstep : calcAppStep text acc c = acc := by simp [calcAppStep, hm]
      rw [hstep]
      rcases ih acc with h | ⟨c', hc', hmm, h1, h2⟩
      · exact Or.inl h
      · exact Or.inr ⟨c', List.mem_cons_of_mem c hc', hmm, h1, h2⟩

/-- Claim C3: urgency determination is a case-insensitive substring scan over
the concatenated indication+history+symptoms with the immediate tier checked
before the urgent tier: a text containing an immediate-tier keyword yields
immediate even when an urgent-tier keyword is also present; only an urgent-tier
keyword yields urgent; neither yields routine. -/
theorem determine_urgency_tier_order (ind : String) (hist symp : Option String) :
    (immediate_indicators.any
        (fun k => strContains (combined_text ind hist symp) k) = true →
      determine_urgency (combined_text ind hist symp) = UrgencyLevel.immediate) ∧
    (immediate_indicators.any
        (fun k => strContains (combined_text ind hist symp) k) = false →
      urgent_indicators.any
        (fun k => strContains (combined_text ind hist symp) k) = true →
      determine_urgency (combined_text ind hist symp) = UrgencyLevel.urgent) ∧
    (immediate_indicators.any
        (fun k => strContains (combined_text ind hist symp) k) = false →
      urgent_indicators.any
        (fun k => strContains (combined_text ind hist symp) k) = false →
      determine_urgency (combined_text ind hist symp) = UrgencyLevel.routine) := by
  refine ⟨fun h1 => ?_, fun h1 h2 => ?_, fun h1 h2 => ?_⟩
  · simp [determine_urgency, h1]
  · simp [determine_urgency, h1, h2]
  · simp [determine_urgency, h1, h2]

/-- Witness for C3: a text with both a stroke and a trauma keyword is
immediate, confusion alone is urgent, an unrelated text is routine. -/
theorem determine_urgency_tier_order_witness :
    determine_urgency (combined_text "Acute Stroke" (some "head Trauma") Option.none)
        = UrgencyLevel.immediate ∧
    determine_urgency (combined_text "Confusion" Option.none Option.none)
        = UrgencyLevel.urgent ∧
    determine_urgency (combined_text "routine follow up" Option.none Option.none)
        = UrgencyLevel.routine := by
  refine ⟨(determine_urgency_tier_order "Acute Stroke" (some "head Trauma")
      Option.none).1 (by decide),
    (determine_urgency_tier_order "Confusion" Option.none Option.none).2.1
      (by decide) (by decide),
    (determine_urgency_tier_order "routine follow up" Option.none Option.none).2.2
      (by decide) (by decide)⟩

/-- Claim C5: GCS returns total = eye + verbal + motor, severity mild when
total at least 13, moderate when between 9 and 12, severe otherwise; the
interpretation is the entry of the highest threshold at or below the total
among 15, 13, 9, 8, with the critical string below 8. -/
theorem calculate_gcs_score_spec (e v m : Int) :
    (calculate_gcs_score e v m).total_score = e + v + m ∧
    (calculate_gcs_score e v m).eye = e ∧
    (calculate_gcs_score e v m).verbal = v ∧
    (calculate_gcs_score e v m).motor = m ∧
    (13 ≤ e + v + m → (calculate_gcs_score e v m).severity = "mild") ∧
    (9 ≤ e + v + m → e + v + m < 13 →
      (calculate_gcs_score e v m).severity = "moderate") ∧
    (e + v + m < 9 → (calculate_gcs_score e v m).severity = "severe") ∧
    (15 ≤ e + v + m →
      (calculate_gcs_score e v m).interpretation = "Normal consciousness") ∧
    (13 ≤ e + v + m → e + v + m < 15 →
      (calculate_gcs_score e v m).interpretation = "Minor brain injury") ∧
    (9 ≤ e + v + m → e + v + m < 13 →
      (calculate_gcs_score e v m).interpretation = "Moderate brain injury") ∧
    (8 ≤ e + v + m → e + v + m < 9 →
      (calculate_gcs_score e v m).interpretation = "Severe brain injury (coma)") ∧
    (e + v + m < 8 →
      (calculate_gcs_score e v m).interpretation =
        "Critical - immediate intervention required") := by
  refine ⟨rfl, rfl, rfl, rfl, ?_, ?_, ?_, ?_, ?_, ?_, ?_, ?_⟩ <;> intros <;>
    (simp only [calculate_gcs_score, interpret_gcs]
     split_ifs <;> first | rfl | omega)

/-- Witness for C5: eye 4, verbal 5, motor 6 gives total 15, severity mild,
interpretation Normal consciousness; eye 1, verbal 2, motor 4 gives total 7,
severity severe, interpretation the critical string. -/
theorem calculate_gcs_score_spec_witness :
    (calculate_gcs_score 4 5 6).total_score = 15 ∧
    (calculate_gcs_score 4 5 6).severity = "mild" ∧
    (calculate_gcs_score 4 5 6).interpretation = "Normal consciousness" ∧
    (calculate_gcs_score 1 2 4).total_score = 7 ∧
    (calculate_gcs_score 1 2 4).severity = "severe" ∧
    (calculate_gcs_score 1 2 4).interpretation =
      "Critical - immediate intervention required" := by
  have h1 := calculate_gcs_score_spec 4 5 6
  have h2 := calculate_gcs_score_spec 1 2 4
  exact ⟨h1.1, h1.2.2.2.2.1 (by decide), h1.2.2.2.2.2.2.2.1 (by decide),
    h2.1, h2.2.2.2.2.2.2.1 (by decide), h2.2.2.2.2.2.2.2.2.2.2.2 (by decide)⟩

/-- Claim C4: appropriateness scoring matches each criterion by word-set
overlap of size at least min(2, criterion word count), keeps the matched
criterion with the highest score, maps the best score to a category by the
thresholds 7, 6, 4, 2 (score 0, category very_low when nothing matches), and
renders the reason as Score: n/9 with the matched criterion name or the fixed
no-match text. -/
theorem calculate_appropriateness_spec (text : String) :
    ((calculate_appropriateness text).1 =
      (if 7 ≤ bestMatchedScoreSpec text then AppropriatenessScore.very_high
       else if 6 ≤ bestMatchedScoreSpec text then AppropriatenessScore.high
       else if 4 ≤ bestMatchedScoreSpec text then AppropriatenessScore.moderate
       else if 2 ≤ bestMatchedScoreSpec text then AppropriatenessScore.low
       else AppropriatenessScore.very_low)) ∧
    (APPROPRIATENESS_CRITERIA.filter (fun c => criteriaMatch text c) = [] →
      (calculate_appropriateness text).2 =
        "Score: 0/9 - No specific criteria matched") ∧
    (APPROPRIATENESS_CRITERIA.filter (fun c => criteriaMatch text c) ≠ [] →
      ∃ c ∈ APPROPRIATENESS_CRITERIA, criteriaMatch text c = true ∧
        c.2 = bestMatchedScoreSpec text ∧
        (calculate_appropriateness text).2 =
          "Score: " ++ toString (bestMatchedScoreSpec text) ++ "/9 - " ++
            ("Matched criteria: " ++ c.1)) := by
  refine ⟨?_, fun hnil => ?_, fun hne => ?_⟩
  · show (if _ ≥ 7 then _ else _) = _
    rw [calcApp_score]
    rfl
  · simp only [calculate_appropriateness]
    rw [calcApp_none text _ _ hnil]
    rfl
  · rcases calcApp_reason text APPROPRIATENESS_CRITERIA
      (0, "No specific criteria matched") with h | ⟨c, hc, hm, h1, h2⟩
    · exfalso
      rcases List.exists_mem_of_ne_nil _ hne with ⟨c, hc⟩
      have hcm := List.mem_filter.mp hc
      have hle : c.2 ≤ bestMatchedScoreSpec text := by
        apply mem_le_foldl_max
        exact List.mem_map_of_mem Prod.snd hc
      have hz : bestMatchedScoreSpec text = 0 := by
        have := calcApp_score text APPROPRIATENESS_CRITERIA
          (0, "No specific criteria matched")
        rw [h] at this
        exact this.symm
      have h2le : 2 ≤ c.2 := by
        have : ∀ d ∈ APPROPRIATENESS_CRITERIA, 2 ≤ d.2 := by decide
        exact this c hcm.1
      omega
    · have hb : c.2 = bestMatchedScoreSpec text := by
        rw [← h1, calcApp_score]; rfl
      refine ⟨c, hc, hm, hb, ?_⟩
      simp only [calculate_appropriateness]
      rw [h2, h1, hb]

/-- Witness for C4: the text acute stroke symptoms with trauma matches the
criterion acute stroke symptoms (score 9, very_high), and a text matching no
criterion yields the fixed no-match reason. -/
theorem calculate_appropriateness_spec_witness :
    (calculate_appropriateness "acute stroke symptoms with trauma").1 =
      AppropriatenessScore.very_high ∧
    (calculate_appropriateness "mild fever").2 =
      "Score: 0/9 - No specific criteria matched" := by
  constructor
  · rw [(calculate_appropriateness_spec "acute stroke symptoms with trauma").1]
    decide
  · exact (calculate_appropriateness_spec "mild fever").2.1 (by decide)

/-! ### Helper lemmas about keyed record lists -/

/-- Committing an update keyed on an id: the first record matching the id in
the updated table is the updated form of the first match in the old table. -/
theorem find?_map_update {α : Type} (key : α → String) (f : α → α) (sid : String) :
    ∀ (db : List α) (a : α),
      db.find? (fun s => key s == sid) = some a →
      key (f a) = key a →
      (db.map (fun s => if key s == sid then f s else s)).find?
        (fun s => key s == sid) = some (f a) := by
  intro db
  induction db with
  | nil => intro a h _; simp at h
  | cons b db ih =>
    intro a h hid
    cases hb : (key b == sid) with
    | true =>
      rw [show (b :: db).find? (fun s => key s == sid) = some b by
        simp [List.find?, hb]] at h
      injection h with h
      subst h
      have hfb : (key (f b) == sid) = true := by rw [hid]; exact hb
      rw [List.map_cons, if_pos hb]
      simp [List.find?, hfb]
    | false =>
      rw [show (b :: db).find? (fun s => key s == sid) =
          db.find? (fun s => key s == sid) by simp [List.find?, hb]] at h
      rw [List.map_cons, if_neg (by simp [hb]),
        show (b :: db.map (fun s => if key s == sid then f s else s)).find?
            (fun s => key s == sid) =
          (db.map (fun s => if key s == sid then f s else s)).find?
            (fun s => key s == sid) by simp [List.find?, hb]]
      exact ih a h hid

/-- Claim C1 (latent defect in the code): apply-analysis at a stored ordered
scan commits the analysed urgency, appropriateness score and reason and the
validated status, but the operation then evaluates await db.refresh(scan)
where the name db is undefined, raising NameError instead of returning the
summary mapping the claim describes. -/
theorem update_scan_with_analysis_bug :
    update_scan_with_analysis [sampleScan] "scan-1"
        { urgency_level := UrgencyLevel.immediate
          appropriateness_score := AppropriatenessScore.very_high
          appropriateness_reason :=
            "Score: 9/9 - Matched criteria: acute stroke symptoms" } =
      ([{ sampleScan with
            urgency_level := UrgencyLevel.immediate
            appropriateness_score := some AppropriatenessScore.very_high
            appropriateness_reason :=
              some "Score: 9/9 - Matched criteria: acute stroke symptoms"
            status := ScanStatus.validated }],
       Except.error ClinicalUpdateError.nameErrorUndefinedDb) := by
  rfl

/-- Claim C2: find_available_scanner never returns a scanner whose scheduled
count has reached its daily capacity, while schedule_scan enforces no
capacity: given an existing scan and scanner it fails only on a non-available
scanner status (NotFound only when the scan or scanner is absent), and on an
available scanner it assigns the scanner, marks the scan scheduled, and
increments today_scans_scheduled even past daily_capacity. -/
theorem capacity_advisory_in_find_not_in_schedule
    (sdb : List ScannerRec) (now_m dur : Nat) (pt : Option ScannerType)
    (db : ResourceDB) (scan_id scanner_id : String) (st : Option Int) (now : Int) :
    (∀ s, find_available_scanner sdb now_m dur pt = some s →
      s.today_scans_scheduled < s.daily_capacity) ∧
    (db.scans.find? (fun s => s.id == scan_id) = Option.none →
      schedule_scan db scan_id scanner_id st now =
        (db, Except.error ScheduleError.scanNotFound)) ∧
    (∀ scan, db.scans.find? (fun s => s.id == scan_id) = some scan →
      db.scanners.find? (fun s => s.id == scanner_id) = Option.none →
      schedule_scan db scan_id scanner_id st now =
        (db, Except.error ScheduleError.scannerNotFound)) ∧
    (∀ scan scanner, db.scans.find? (fun s => s.id == scan_id) = some scan →
      db.scanners.find? (fun s => s.id == scanner_id) = some scanner →
      scanner.status ≠ ScannerStatus.available →
      schedule_scan db scan_id scanner_id st now =
        (db, Except.error ScheduleError.scannerNotAvailable)) ∧
    (∀ scan scanner, db.scans.find? (fun s => s.id == scan_id) = some scan →
      db.scanners.find? (fun s => s.id == scanner_id) = some scanner →
      scanner.status = ScannerStatus.available →
      (schedule_scan db scan_id scanner_id st now).2 =
        Except.ok { scan_id := scan.id
                    scanner_id := scanner.id
                    scanner_code := scanner.scanner_code
                    scheduled_time := st.getD (now + 15)
                    estimated_duration_minutes := scanner.avg_scan_duration_minutes
                    estimated_completion :=
                      st.getD (now + 15) + scanner.avg_scan_duration_minutes } ∧
      (schedule_scan db scan_id scanner_id st now).1.scans.find?
          (fun s => s.id == scan_id) =
        some { scan with scanner_id := some scanner_id
                         scheduled_time := some (st.getD (now + 15))
                         status := ScanStatus.scheduled } ∧
      (schedule_scan db scan_id scanner_id st now).1.scanners.find?
          (fun s => s.id == scanner_id) =
        some { scanner with
                 today_scans_scheduled := scanner.today_scans_scheduled + 1 }) := by
  refine ⟨?_, ?_, ?_, ?_, ?_⟩
  · intro s hs
    simp only [find_available_scanner] at hs
    have hp := List.find?_some hs
    rw [Bool.and_eq_true] at hp
    exact of_decide_eq_true hp.1
  · intro h
    simp only [schedule_scan, h]
  · intro scan h1 h2
    simp only [schedule_scan, h1, h2]
  · intro scan scanner h1 h2 hst
    simp only [schedule_scan, h1, h2]
    rw [if_pos hst]
  · intro scan scanner h1 h2 hst
    simp only [schedule_scan, h1, h2]
    rw [if_neg (fun hc => hc hst)]
    refine ⟨rfl, ?_, ?_⟩
    · exact find?_map_update CTScanRec.id _ scan_id db.scans scan h1 rfl
    · exact find?_map_update ScannerRec.id _ scanner_id db.scanners scanner h2 rfl

/-- Witness for C2: a capacity-exhausted available scanner is skipped by find
yet accepted by schedule (counter pushed to 2 past capacity 1), and an
under-capacity scanner returned by find satisfies the capacity bound. -/
theorem capacity_advisory_in_find_not_in_schedule_witness :
    find_available_scanner [fullScanner] 600 30 Option.none = Option.none ∧
    freeScanner.today_scans_scheduled < freeScanner.daily_capacity ∧
    (schedule_scan { scans := [sampleScan], scanners := [fullScanner] }
        "scan-1" "scanner-1" Option.none 0).2 =
      Except.ok { scan_id := "scan-1"
                  scanner_id := "scanner-1"
                  scanner_code := "CT-01"
                  scheduled_time := 15
                  estimated_duration_minutes := 30
                  estimated_completion := 45 } ∧
    (schedule_scan { scans := [sampleScan], scanners := [fullScanner] }
        "scan-1" "scanner-1" Option.none 0).1.scanners.find?
        (fun s => s.id == "scanner-1") =
      some { fullScanner with today_scans_scheduled := 2 } := by
  have hfind := (capacity_advisory_in_find_not_in_schedule [freeScanner] 600 30
    Option.none { scans := [sampleScan], scanners := [fullScanner] }
    "scan-1" "scanner-1" Option.none 0).1 freeScanner (by decide)
  have hsched := (capacity_advisory_in_find_not_in_schedule [freeScanner] 600 30
    Option.none { scans := [sampleScan], scanners := [fullScanner] }
    "scan-1" "scanner-1" Option.none 0).2.2.2.2 sampleScan fullScanner
    (by decide) (by decide) rfl
  exact ⟨by decide, hfind, hsched.1, hsched.2.2⟩

/-- Claim C7: the status-patch route fails 404 on an absent scan; otherwise it
sets exactly the timestamp matching the new status (started_time for
in_progress, completed_time for completed, reported_time for reported, the
others untouched), overwrites status, stamps updated_at, and leaves every
other field of the scan unchanged, returning the stored record. -/
theorem update_scan_status_spec (db : List CTScanRec) (scan_id : String)
    (new_status : ScanStatus) (now : Int) :
    (db.find? (fun s => s.id == scan_id) = Option.none →
      update_scan_status db scan_id new_status now =
        (db, Except.error HTTPError.notFound)) ∧
    (∀ scan, db.find? (fun s => s.id == scan_id) = some scan →
      ∃ scan3,
        (update_scan_status db scan_id new_status now).2 = Except.ok scan3 ∧
        (update_scan_status db scan_id new_status now).1.find?
          (fun s => s.id == scan_id) = some scan3 ∧
        scan3.status = new_status ∧
        scan3.updated_at = now ∧
        scan3.started_time =
          (if new_status = ScanStatus.in_progress then some now
           else scan.started_time) ∧
        scan3.completed_time =
          (if new_status = ScanStatus.completed then some now
           else scan.completed_time) ∧
        scan3.reported_time =
          (if new_status = ScanStatus.reported then some now
           else scan.reported_time) ∧
        scan3.id = scan.id ∧
        scan3.scan_number = scan.scan_number ∧
        scan3.patient_id = scan.patient_id ∧
        scan3.ordering_physician_id = scan.ordering_physician_id ∧
        scan3.radiology_technician_id = scan.radiology_technician_id ∧
        scan3.radiologist_id = scan.radiologist_id ∧
        scan3.scanner_id = scan.scanner_id ∧
        scan3.ct_indication = scan.ct_indication ∧
        scan3.clinical_history = scan.clinical_history ∧
        scan3.symptoms = scan.symptoms ∧
        scan3.onset_time = scan.onset_time ∧
        scan3.gcs_score = scan.gcs_score ∧
        scan3.neurological_findings = scan.neurological_findings ∧
        scan3.urgency_level = scan.urgency_level ∧
        scan3.appropriateness_score = scan.appropriateness_score ∧
        scan3.appropriateness_reason = scan.appropriateness_reason ∧
        scan3.contrast = scan.contrast ∧
        scan3.ai_preliminary_findings = scan.ai_preliminary_findings ∧
        scan3.ai_motion_artifact = scan.ai_motion_artifact ∧
        scan3.ai_quality_score = scan.ai_quality_score ∧
        scan3.scheduled_time = scan.scheduled_time ∧
        scan3.preliminary_report = scan.preliminary_report ∧
        scan3.final_report = scan.final_report ∧
        scan3.critical_findings = scan.critical_findings ∧
        scan3.critical_findings_notification = scan.critical_findings_notification ∧
        scan3.transport_requested = scan.transport_requested ∧
        scan3.transport_eta = scan.transport_eta ∧
        scan3.transport_team = scan.transport_team ∧
        scan3.ordered_at = scan.ordered_at ∧
        scan3.created_at = scan.created_at) := by
  constructor
  · intro h
    simp only [update_scan_status, h]
  · intro scan h
    simp only [update_scan_status, h]
    cases new_status <;>
      exact ⟨_, rfl, find?_map_update CTScanRec.id _ scan_id db scan h rfl,
        rfl, rfl, rfl, rfl, rfl, rfl, rfl, rfl, rfl, rfl, rfl, rfl, rfl, rfl,
        rfl, rfl, rfl, rfl, rfl, rfl, rfl, rfl, rfl, rfl, rfl, rfl, rfl, rfl,
        rfl, rfl, rfl, rfl, rfl, rfl, rfl⟩

/-- Witness for C7: patching the sample ordered scan to completed stamps
completed_time and updated_at and leaves the other fields unchanged. -/
theorem update_scan_status_spec_witness :
    ∃ scan3,
      (update_scan_status [sampleScan] "scan-1" ScanStatus.completed 5).2 =
        Except.ok scan3 ∧
      (update_scan_status [sampleScan] "scan-1" ScanStatus.completed 5).1.find?
        (fun s => s.id == "scan-1") = some scan3 ∧
      scan3.status = ScanStatus.completed ∧
      scan3.updated_at = 5 ∧
      scan3.started_time =
        (if ScanStatus.completed = ScanStatus.in_progress then some 5
         else sampleScan.started_time) ∧
      scan3.completed_time =
        (if ScanStatus.completed = ScanStatus.completed then some 5
         else sampleScan.completed_time) ∧
      scan3.reported_time =
        (if ScanStatus.completed = ScanStatus.reported then some 5
         else sampleScan.reported_time) ∧
      scan3.id = sampleScan.id ∧
      scan3.scan_number = sampleScan.scan_number ∧
      scan3.patient_id = sampleScan.patient_id ∧
      scan3.ordering_physician_id = sampleScan.ordering_physician_id ∧
      scan3.radiology_technician_id = sampleScan.radiology_technician_id ∧
      scan3.radiologist_id = sampleScan.radiologist_id ∧
      scan3.scanner_id = sampleScan.scanner_id ∧
      scan3.ct_indication = sampleScan.ct_indication ∧
      scan3.clinical_history = sampleScan.clinical_history ∧
      scan3.symptoms = sampleScan.symptoms ∧
      scan3.onset_time = sampleScan.onset_time ∧
      scan3.gcs_score = sampleScan.gcs_score ∧
      scan3.neurological_findings = sampleScan.neurological_findings ∧
      scan3.urgency_level = sampleScan.urgency_level ∧
      scan3.appropriateness_score = sampleScan.appropriateness_score ∧
      scan3.appropriateness_reason = sampleScan.appropriateness_reason ∧
      scan3.contrast = sampleScan.contrast ∧
      scan3.ai_preliminary_findings = sampleScan.ai_preliminary_findings ∧
      scan3.ai_motion_artifact = sampleScan.ai_motion_artifact ∧
      scan3.ai_quality_score = sampleScan.ai_quality_score ∧
      scan3.scheduled_time = sampleScan.scheduled_time ∧
      scan3.preliminary_report = sampleScan.preliminary_report ∧
      scan3.final_report = sampleScan.final_report ∧
      scan3.critical_findings = sampleScan.critical_findings ∧
      scan3.critical_findings_notification =
        sampleScan.critical_findings_notification ∧
      scan3.transport_requested = sampleScan.transport_requested ∧
      scan3.transport_eta = sampleScan.transport_eta ∧
      scan3.transport_team = sampleScan.transport_team ∧
      scan3.ordered_at = sampleScan.ordered_at ∧
      scan3.created_at = sampleScan.created_at := by
  exact (update_scan_status_spec [sampleScan] "scan-1" ScanStatus.completed 5).2
    sampleScan (by decide)

/-! ### Helper lemmas for Python truthiness in anxiety scoring -/

/-- A truthiness-guarded numeric contribution always equals the plain value:
an absent or zero answer contributes zero either way. -/
theorem truthy_num_add (x : Int) (o : Option Int) :
    (if truthyNum o then x + o.getD 0 else x) = x + o.getD 0 := by
  cases o with
  | none => simp [truthyNum]
  | some n =>
    by_cases hn : n = 0
    · subst hn; simp [truthyNum]
    · simp [truthyNum, hn]

/-- The truthiness-guarded previous-experience bonus is exactly +2 for the
string negative (the empty string is falsy and never equal to negative). -/
theorem truthy_str_neg (x : Int) (o : Option String) :
    (if truthyStr o then (if o == some "negative" then x + 2 else x) else x) =
      if o = some "negative" then x + 2 else x := by
  cases o with
  | none => simp [truthyStr]
  | some s =>
    by_cases hs : s = ""
    · subst hs; simp [truthyStr]
    · simp [truthyStr, hs]

/-- Claim C8: anxiety assessment fails NotFound on an absent patient;
otherwise the score is the sum of the numeric values of nervous, worrying and
relaxation_difficulty (0 when absent) plus 2 when previous_ct_experience is
negative; the level is classified by the 2/5/8 thresholds, persisted on the
patient record, and returned with the level-specific recommendations. -/
theorem assess_anxiety_spec (db : List PatientRec) (patient_id : String)
    (r : AnxietyResponses) :
    (db.find? (fun p => p.id == patient_id) = Option.none →
      assess_anxiety db patient_id r =
        (db, Except.error PatientError.notFound)) ∧
    (∀ patient, db.find? (fun p => p.id == patient_id) = some patient →
      ∃ res, (assess_anxiety db patient_id r).2 = Except.ok res ∧
        res.patient_id = patient_id ∧
        res.score = r.nervous.getD 0 + r.worrying.getD 0 +
          r.relaxation_difficulty.getD 0 +
          (if r.previous_ct_experience = some "negative" then 2 else 0) ∧
        res.anxiety_level =
          (if res.score ≤ 2 then AnxietyLevel.none
           else if res.score ≤ 5 then AnxietyLevel.mild
           else if res.score ≤ 8 then AnxietyLevel.moderate
           else AnxietyLevel.severe) ∧
        res.recommendations = get_anxiety_recommendations res.anxiety_level ∧
        (assess_anxiety db patient_id r).1.find? (fun p => p.id == patient_id) =
          some { patient with anxiety_level := res.anxiety_level }) := by
  constructor
  · intro h
    simp only [assess_anxiety, h]
  · intro patient h
    simp only [assess_anxiety, h]
    refine ⟨_, rfl, rfl, ?_, rfl, rfl, ?_⟩
    · show (if truthyStr r.previous_ct_experience then _ else _) = _
      rw [truthy_str_neg, truthy_num_add, truthy_num_add, truthy_num_add]
      split_ifs <;> omega
    · exact find?_map_update PatientRec.id _ patient_id db patient h rfl

/-- Witness for C8: answers 3, 2, 2 with a negative previous experience on
the sample patient give score 9, level severe, persisted and returned. -/
theorem assess_anxiety_spec_witness :
    ∃ res, (assess_anxiety [samplePatient] "pat-1"
        ⟨some 3, some 2, some 2, some "negative"⟩).2 = Except.ok res ∧
      res.patient_id = "pat-1" ∧
      res.score = 9 ∧
      res.anxiety_level =
        (if res.score ≤ 2 then AnxietyLevel.none
         else if res.score ≤ 5 then AnxietyLevel.mild
         else if res.score ≤ 8 then AnxietyLevel.moderate
         else AnxietyLevel.severe) ∧
      res.recommendations = get_anxiety_recommendations res.anxiety_level ∧
      (assess_anxiety [samplePatient] "pat-1"
          ⟨some 3, some 2, some 2, some "negative"⟩).1.find?
        (fun p => p.id == "pat-1") =
        some { samplePatient with anxiety_level := res.anxiety_level } :=
  (assess_anxiety_spec [samplePatient] "pat-1"
    ⟨some 3, some 2, some 2, some "negative"⟩).2 samplePatient (by decide)

/-! ### Helper lemmas for FAQ relevance -/

/-- The collection loop of answer_faq collects exactly the FAQs relevant by
keyword or word overlap, in storage order. -/
theorem relevantLoop_eq_filter (q : String) (l : List FAQRec) :
    relevantLoop q l =
      l.filter (fun f => kwRelevant q f || wordRelevant q f) := by
  induction l with
  | nil => rfl
  | cons f l ih =>
    simp only [relevantLoop, List.filter_cons]
    cases hk : kwRelevant q f with
    | true => simp [hk, ih]
    | false =>
      cases hw : wordRelevant q f with
      | true => simp [hk, hw, ih]
      | false => simp [hk, hw, ih]

/-- In a table with distinct keys, the first record with the key of a stored
record is that record itself. -/
theorem find?_key_of_nodup {α : Type} (key : α → String) :
    ∀ (db : List α), (db.map key).Nodup → ∀ a ∈ db,
      db.find? (fun s => key s == key a) = some a := by
  intro db
  induction db with
  | nil => intro _ a ha; cases ha
  | cons b db ih =>
    intro hnd a ha
    rw [List.map_cons, List.nodup_cons] at hnd
    rcases List.mem_cons.mp ha with h | h
    · subst h
      simp [List.find?]
    · have hne : (key b == key a) = false := by
        rw [beq_eq_false_iff_ne]
        intro he
        exact hnd.1 (he ▸ List.mem_map_of_mem key h)
      rw [show (b :: db).find? (fun s => key s == key a) =
          db.find? (fun s => key s == key a) by simp [List.find?, hne]]
      exact ih hnd.2 a h

/-- A record whose key does not match the update key survives a keyed map
update unchanged. -/
theorem mem_map_untouched {α : Type} (key : α → String) (f : α → α)
    (sid : String) (db : List α) (a : α) (ha : a ∈ db)
    (hne : (key a == sid) = false) :
    a ∈ db.map (fun s => if key s == sid then f s else s) := by
  have hmem : (if key a == sid then f a else a) ∈
      db.map (fun s => if key s == sid then f s else s) :=
    List.mem_map_of_mem (fun s => if key s == sid then f s else s) ha
  rw [show (if key a == sid then f a else a) = a by simp [hne]] at hmem
  exact hmem

/-- Claim C9: an FAQ is relevant iff some comma-separated trimmed lower-cased
keyword is a substring of the lower-cased question or the word sets of the
question and the FAQ question intersect; the first relevant active FAQ is
returned with its view count incremented (confidence high exactly when it is
the only relevant one, else medium); with none relevant, the fixed fallback
answer with confidence low and no FAQ id. -/
theorem answer_faq_spec (db : List FAQRec) (question : String)
    (hids : (db.map FAQRec.id).Nodup) :
    (relevantLoop (lowerStr question) (db.filter (fun f => f.is_active)) =
      (db.filter (fun f => f.is_active)).filter
        (fun f => kwRelevant (lowerStr question) f ||
          wordRelevant (lowerStr question) f)) ∧
    ((db.filter (fun f => f.is_active)).filter
        (fun f => kwRelevant (lowerStr question) f ||
          wordRelevant (lowerStr question) f) = [] →
      answer_faq db question =
        (db, { answer := generate_faq_answer
               category := some "general"
               faq_id := Option.none
               confidence := "low" })) ∧
    (∀ best rest,
      (db.filter (fun f => f.is_active)).filter
        (fun f => kwRelevant (lowerStr question) f ||
          wordRelevant (lowerStr question) f) = best :: rest →
      (answer_faq db question).2 =
        { answer := best.answer
          category := best.category
          faq_id := some best.id
          confidence := if rest = [] then "high" else "medium" } ∧
      (answer_faq db question).1.find? (fun f => f.id == best.id) =
        some { best with view_count := best.view_count + 1 } ∧
      ∀ f ∈ db, (f.id == best.id) = false →
        f ∈ (answer_faq db question).1) := by
  refine ⟨relevantLoop_eq_filter _ _, ?_, ?_⟩
  · intro h
    simp only [answer_faq, relevantLoop_eq_filter, h]
  · intro best rest h
    have hbest_db : best ∈ db := by
      have h1 : best ∈ (db.filter (fun f => f.is_active)).filter
          (fun f => kwRelevant (lowerStr question) f ||
            wordRelevant (lowerStr question) f) := by
        rw [h]; exact List.mem_cons_self _ _
      exact List.mem_of_mem_filter (List.mem_of_mem_filter h1)
    have hfind : db.find? (fun s => s.id == best.id) = some best :=
      find?_key_of_nodup FAQRec.id db hids best hbest_db
    simp only [answer_faq, relevantLoop_eq_filter, h]
    refine ⟨?_, ?_, ?_⟩
    · cases rest with
      | nil => rfl
      | cons f l => rfl
    · exact find?_map_update FAQRec.id _ best.id db best hfind rfl
    · intro f hf hne
      exact mem_map_untouched FAQRec.id _ best.id db f hf hne

/-- Witness for C9: the sample FAQ is the unique keyword match for a
duration question, so it is returned with confidence high and its view count
moves from 3 to 4 in storage. -/
theorem answer_faq_spec_witness :
    (answer_faq [sampleFAQ] "How long will the scan take?").2 =
      { answer := "A CT brain scan typically takes 15 to 30 minutes."
        category := some "procedure"
        faq_id := some "faq-1"
        confidence := "high" } ∧
    (answer_faq [sampleFAQ] "How long will the scan take?").1.find?
        (fun f => f.id == "faq-1") =
      some { sampleFAQ with view_count := 4 } := by
  have h := (answer_faq_spec [sampleFAQ] "How long will the scan take?"
    (by decide)).2.2 sampleFAQ [] (by decide)
  exact ⟨h.1, h.2.1⟩

/-! ### Helper lemmas for claim dictionaries -/

theorem find?_cons_true {α : Type} (p : α → Bool) (b : α) (l : List α)
    (hb : p b = true) : (b :: l).find? p = some b := by
  simp [List.find?, hb]

theorem find?_cons_false {α : Type} (p : α → Bool) (b : α) (l : List α)
    (hb : p b = false) : (b :: l).find? p = l.find? p := by
  simp [List.find?, hb]

/-- Overwriting a present key: the overwritten value is what lookup finds. -/
theorem dictLookup_map_set (k : String) (v : JVal) :
    ∀ (m : Claims), m.any (fun kv => kv.1 == k) = true →
      dictLookup (m.map (fun kv => if kv.1 == k then (k, v) else kv)) k =
        some v := by
  intro m
  induction m with
  | nil => intro h; simp at h
  | cons kv m ih =>
    intro h
    cases hk : (kv.1 == k) with
    | true =>
      rw [List.map_cons, if_pos hk]
      unfold dictLookup
      rw [find?_cons_true (fun kv => kv.1 == k) (k, v) _ (by simp)]
      rfl
    | false =>
      rw [List.map_cons, if_neg (by simp [hk])]
      have hm : m.any (fun kv => kv.1 == k) = true := by
        simpa [List.any_cons, hk] using h
      unfold dictLookup
      rw [find?_cons_false (fun kv => kv.1 == k) kv _ hk]
      exact ih hm

/-- A never-present key looks up to nothing. -/
theorem dictLookup_none_of_any_false (k : String) (m : Claims)
    (h : m.any (fun kv => kv.1 == k) = false) :
    m.find? (fun kv => kv.1 == k) = Option.none := by
  rw [List.find?_eq_none]
  intro x hx
  rw [List.any_eq_false] at h
  exact h x hx

/-- dict update then lookup of the same key gives the new value. -/
theorem dictLookup_dictSet_same (m : Claims) (k : String) (v : JVal) :
    dictLookup (dictSet m k v) k = some v := by
  unfold dictSet
  cases h : m.any (fun kv => kv.1 == k) with
  | true =>
    rw [if_pos rfl]
    exact dictLookup_map_set k v m h
  | false =>
    rw [if_neg Bool.false_ne_true]
    unfold dictLookup
    rw [List.find?_append, dictLookup_none_of_any_false k m h]
    simp [List.find?]

/-- Setting one key leaves the first match of every other key unchanged. -/
theorem find?_map_set_other (k k2 : String) (v : JVal) (hne : k2 ≠ k) :
    ∀ (m : Claims),
      (m.map (fun kv => if kv.1 == k then (k, v) else kv)).find?
          (fun kv => kv.1 == k2) =
        m.find? (fun kv => kv.1 == k2) := by
  have hkk2 : (k == k2) = false :=
    beq_eq_false_iff_ne.mpr (fun he => hne he.symm)
  intro m
  induction m with
  | nil => rfl
  | cons kv m ih =>
    cases hk : (kv.1 == k) with
    | true =>
      have hkeq : kv.1 = k := by simpa using hk
      rw [List.map_cons, if_pos hk,
        find?_cons_false (fun kv => kv.1 == k2) (k, v) _ hkk2,
        find?_cons_false (fun kv => kv.1 == k2) kv m
          (by show (kv.1 == k2) = false; rw [hkeq]; exact hkk2)]
      exact ih
    | false =>
      rw [List.map_cons, if_neg (by simp [hk])]
      cases hk2 : (kv.1 == k2) with
      | true =>
        rw [find?_cons_true (fun kv => kv.1 == k2) kv _ hk2,
          find?_cons_true (fun kv => kv.1 == k2) kv _ hk2]
      | false =>
        rw [find?_cons_false (fun kv => kv.1 == k2) kv _ hk2,
          find?_cons_false (fun kv => kv.1 == k2) kv _ hk2]
        exact ih

/-- dict update then lookup of a different key is the original lookup. -/
theorem dictLookup_dictSet_other (m : Claims) (k k2 : String) (v : JVal)
    (hne : k2 ≠ k) :
    dictLookup (dictSet m k v) k2 = dictLookup m k2 := by
  unfold dictSet
  cases h : m.any (fun kv => kv.1 == k) with
  | true =>
    rw [if_pos rfl]
    unfold dictLookup
    rw [find?_map_set_other k k2 v hne m]
  | false =>
    rw [if_neg Bool.false_ne_true]
    unfold dictLookup
    rw [List.find?_append]
    have hkk2 : (k == k2) = false :=
      beq_eq_false_iff_ne.mpr (fun he => hne he.symm)
    cases hm : m.find? (fun kv => kv.1 == k2) with
    | some x => rfl
    | none => simp [List.find?, hkk2]

/-- Counterexample to C6 as stated: issuing a token from the claim mapping
containing the single claim exp with value time 0 overwrites that claim with
the computed expiry, so the decoded mapping does not contain the supplied
claim. -/
theorem token_roundtrip_counterexample :
    decode_access_token
        (create_access_token [("exp", JVal.time 0)] Option.none 0) 0 =
      some [("exp", JVal.time 86400)] ∧
    dictLookup [("exp", JVal.time 86400)] "exp" ≠ some (JVal.time 0) := by
  exact ⟨rfl, by decide⟩

/-- Claim C6 as amended: decoding a token issued with the configured secret,
at any instant not after its expiry, yields the supplied claims with exp
overwritten by the computed expiry (supplied expiry when truthy, otherwise
the default lifetime); every supplied claim whose key is not exp survives;
decoding an expired token or one signed with a different secret yields no
value; and the login claim set is exactly sub, email, role, type access. -/
theorem token_roundtrip_amended (data : Claims) (delta : Option Int)
    (nowI nowD : Int) (tok2 : Token) (uid em rl : String) :
    (∀ k v2, k ≠ "exp" → dictLookup data k = some v2 →
      dictLookup (create_access_token data delta nowI).payload k = some v2) ∧
    (dictLookup (create_access_token data delta nowI).payload "exp" =
      some (JVal.time (token_expire delta nowI))) ∧
    (nowD ≤ token_expire delta nowI →
      decode_access_token (create_access_token data delta nowI) nowD =
        some (dictSet data "exp" (JVal.time (token_expire delta nowI)))) ∧
    (token_expire delta nowI < nowD →
      decode_access_token (create_access_token data delta nowI) nowD =
        Option.none) ∧
    (tok2.secret ≠ JWT_SECRET → decode_access_token tok2 nowD = Option.none) ∧
    create_token_payload uid em rl =
      [("sub", JVal.str uid), ("email", JVal.str em),
       ("role", JVal.str rl), ("type", JVal.str "access")] := by
  refine ⟨?_, ?_, ?_, ?_, ?_, rfl⟩
  · intro k v2 hk hv
    show dictLookup (dictSet data "exp" (JVal.time (token_expire delta nowI))) k
      = some v2
    rw [dictLookup_dictSet_other data "exp" k _ hk]
    exact hv
  · exact dictLookup_dictSet_same data "exp" _
  · intro h
    have hnl : ¬ (token_expire delta nowI < nowD) := not_lt.mpr h
    simp only [decode_access_token, create_access_token, jwt_encode, jwt_decode]
    rw [dictLookup_dictSet_same]
    simp [hnl]
  · intro h
    simp only [decode_access_token, create_access_token, jwt_encode, jwt_decode]
    rw [dictLookup_dictSet_same]
    simp [h]
  · intro h
    simp [decode_access_token, jwt_decode, h]

/-- Witness for C6 (amended): the spec round-trip claims sub, email, role are
all preserved, immediate decoding succeeds with exp 86400, decoding at a
later instant than the expiry fails, and a token signed with another secret
fails to decode. -/
theorem token_roundtrip_amended_witness :
    dictLookup (create_access_token loginClaims Option.none 0).payload "sub" =
      some (JVal.str "u1") ∧
    decode_access_token (create_access_token loginClaims Option.none 0) 10 =
      some (dictSet loginClaims "exp" (JVal.time (token_expire Option.none 0))) ∧
    decode_access_token (create_access_token loginClaims Option.none 0)
      100000 = Option.none ∧
    decode_access_token
      { payload := loginClaims, secret := "other", algorithm := "HS256" } 0 =
      Option.none := by
  refine ⟨?_, ?_, ?_, ?_⟩
  · exact (token_roundtrip_amended loginClaims Option.none 0 10
      { payload := [], secret := "other", algorithm := "HS256" }
      "u1" "a@b.com" "nurse").1 "sub" (JVal.str "u1") (by decide) (by decide)
  · exact (token_roundtrip_amended loginClaims Option.none 0 10
      { payload := [], secret := "other", algorithm := "HS256" }
      "u1" "a@b.com" "nurse").2.2.1 (by decide)
  · exact (token_roundtrip_amended loginClaims Option.none 0 100000
      { payload := [], secret := "other", algorithm := "HS256" }
      "u1" "a@b.com" "nurse").2.2.2.1 (by decide)
  · exact (token_roundtrip_amended loginClaims Option.none 0 0
      { payload := loginClaims, secret := "other", algorithm := "HS256" }
      "u1" "a@b.com" "nurse").2.2.2.2.1 (by decide)

/-! ### Socket registry invariant preservation -/

/-- connect keeps every registered room list non-empty: the touched room list
gains an element and untouched entries are unchanged. -/
theorem socket_connect_preserves (st : SocketManagerState) (ws : Nat)
    (room : String) (h : ∀ e ∈ st.active_connections, e.2 ≠ []) :
    ∀ e ∈ (socket_connect st ws room).active_connections, e.2 ≠ [] := by
  intro e he
  simp only [socket_connect] at he
  rcases List.mem_map.mp he with ⟨e0, he0, heq⟩
  cases h0 : (e0.1 == room) with
  | true =>
    have he2 : e = (e0.1, e0.2 ++ [ws]) := by rw [← heq]; simp [h0]
    rw [he2]
    simp
  | false =>
    have he2 : e = e0 := by rw [← heq]; simp [h0]
    rw [he2]
    by_cases hany : st.active_connections.any (fun e => e.1 == room) = true
    · rw [if_pos hany] at he0
      exact h e0 he0
    · rw [if_neg hany] at he0
      rcases List.mem_append.mp he0 with h1 | h1
      · exact h e0 h1
      · exfalso
        have h2 : e0 = (room, ([] : List Nat)) := by simpa using h1
        rw [h2] at h0
        simp at h0

/-- disconnect keeps every registered room list non-empty: a room list that
becomes empty is deleted by the filter. -/
theorem socket_disconnect_preserves (st : SocketManagerState) (ws : Nat)
    (room : String) (h : ∀ e ∈ st.active_connections, e.2 ≠ []) :
    ∀ e ∈ (socket_disconnect st ws room).active_connections, e.2 ≠ [] := by
  intro e he
  simp only [socket_disconnect] at he
  by_cases hany : st.active_connections.any (fun e => e.1 == room) = true
  · rw [if_pos hany] at he
    have hmf := List.mem_filter.mp he
    rcases List.mem_map.mp hmf.1 with ⟨e0, he0, heq⟩
    have hpred := hmf.2
    cases h0 : (e0.1 == room) with
    | true =>
      have he2 : e = (e0.1, e0.2.erase ws) := by rw [← heq]; simp [h0]
      intro hnil
      rw [he2] at hpred hnil
      simp only at hnil
      simp [h0, hnil] at hpred
    | false =>
      have he2 : e = e0 := by rw [← heq]; simp [h0]
      rw [he2]
      exact h e0 he0
  · rw [if_neg hany] at he
    exact h e he

/-- Disconnecting any sequence of connections from a room preserves the
invariant. -/
theorem socket_disconnect_fold_preserves (room : String) :
    ∀ (l : List Nat) (st : SocketManagerState),
      (∀ e ∈ st.active_connections, e.2 ≠ []) →
      ∀ e ∈ (l.foldl (fun s c => socket_disconnect s c room)
        st).active_connections, e.2 ≠ [] := by
  intro l
  induction l with
  | nil => intro st h; exact h
  | cons c l ih =>
    intro st h
    exact ih (socket_disconnect st c room)
      (socket_disconnect_preserves st c room h)

/-- broadcast cleans up failed connections through disconnect only, so it
preserves the invariant. -/
theorem socket_broadcast_preserves (st : SocketManagerState)
    (failed : List Nat) (room : String)
    (h : ∀ e ∈ st.active_connections, e.2 ≠ []) :
    ∀ e ∈ (socket_broadcast st failed room).active_connections, e.2 ≠ [] := by
  intro e he
  simp only [socket_broadcast] at he
  by_cases hany : st.active_connections.any (fun e => e.1 == room) = true
  · rw [if_pos hany] at he
    exact socket_disconnect_fold_preserves room _ st h e he
  · rw [if_neg hany] at he
    exact h e he

/-- Claim C10: starting from the empty SocketManager, after any sequence of
connect, disconnect and broadcast operations the room registry never maps a
room to an empty connection list. -/
theorem socket_rooms_never_empty (ops : List SocketOp) :
    ∀ e ∈ (socket_run ops).active_connections, e.2 ≠ [] := by
  have haux : ∀ (l : List SocketOp) (st : SocketManagerState),
      (∀ e ∈ st.active_connections, e.2 ≠ []) →
      ∀ e ∈ (l.foldl socket_step st).active_connections, e.2 ≠ [] := by
    intro l
    induction l with
    | nil => intro st h; exact h
    | cons op l ih =>
      intro st h
      refine ih (socket_step st op) ?_
      cases op with
      | connect ws room => exact socket_connect_preserves st ws room h
      | disconnect ws room => exact socket_disconnect_preserves st ws room h
      | broadcast failed room => exact socket_broadcast_preserves st failed room h
  exact haux ops { active_connections := [], user_connections := [] }
    (by intro e he; cases he)

/-- Witness for C10: after a single connect, the dashboard room holds one
connection and its list is non-empty. -/
theorem socket_rooms_never_empty_witness :
    ("dashboard", [1]) ∈
      (socket_run [SocketOp.connect 1 "dashboard"]).active_connections ∧
    ([1] : List Nat) ≠ [] := by
  refine ⟨by decide, ?_⟩
  exact socket_rooms_never_empty [SocketOp.connect 1 "dashboard"]
    ("dashboard", [1]) (by decide)

end CTWorkflow
